import Mathlib

/-!
Shallow embedding of the vertex-pulled quad renderer from
`src/examples/quads/main.rs` (bevy-vertex-pulling), together with proofs of
the specification's claims about it.

Scalars that the code only copies (f32 coordinates and colors) are modelled
as rationals; machine integers are modelled as `Nat` with explicit `% 2^32`
where the code performs `u32` arithmetic or `as u32` casts.
-/

namespace VertexPulling

/-- Modulus of 32-bit unsigned arithmetic. -/
def u32Mod : Nat := 2 ^ 32

/-- Host-side billboard variant, from `enum Billboard` in the source
(`None | ViewY | WorldY | FixedScreenSize`); the spec calls the middle two
variants `ViewFacing` and `WorldYFacing`. -/
inductive Billboard
  | bbNone
  | viewY
  | worldY
  | fixedScreenSize
deriving DecidableEq, Repr

/-- Three-component vector of copied scalars (source `Vec3`). -/
structure V3 where
  x : ℚ
  y : ℚ
  z : ℚ
deriving DecidableEq, Repr

/-- Four-component vector of copied scalars (source `Vec4`). -/
structure V4 where
  x : ℚ
  y : ℚ
  z : ℚ
  w : ℚ
deriving DecidableEq, Repr

/-- Source `Vec3::extend`: append a fourth component. -/
def V3.extend (v : V3) (w : ℚ) : V4 := ⟨v.x, v.y, v.z, w⟩

/-- Host color in RGBA form (source `Color`, which `as_rgba_f32` reads out). -/
structure ColorRgba where
  r : ℚ
  g : ℚ
  b : ℚ
  a : ℚ
deriving DecidableEq, Repr

/-- Source `Color::as_rgba_f32`: the four channels as an array of 4 floats. -/
def ColorRgba.as_rgba_f32 (c : ColorRgba) : List ℚ := [c.r, c.g, c.b, c.a]

/-- Host-side quad description (source `struct Quad`). -/
structure Quad where
  color : ColorRgba
  center : V3
  half_extents : V3
  billboard : Billboard
deriving DecidableEq, Repr

/-- Source `GpuQuadFlags::BILLBOARD = (1 << 0)`. -/
def GpuQuadFlags.BILLBOARD : Nat := 1 <<< 0

/-- Source `GpuQuadFlags::BILLBOARD_WORLD_Y = (1 << 1)`. -/
def GpuQuadFlags.BILLBOARD_WORLD_Y : Nat := 1 <<< 1

/-- Source `GpuQuadFlags::BILLBOARD_FIXED_SCREEN_SIZE = (1 << 2)`. -/
def GpuQuadFlags.BILLBOARD_FIXED_SCREEN_SIZE : Nat := 1 <<< 2

/-- GPU-side quad record (source `struct GpuQuad`). -/
structure GpuQuad where
  center : V3
  flags : Nat
  half_extents : V4
  color : List ℚ
deriving DecidableEq, Repr

/-- Source `impl From<&Quad> for GpuQuad`: the pure encoder. The `match` on
the billboard variant has exactly the four source arms and no default arm. -/
def GpuQuad.fromQuad (quad : Quad) : GpuQuad :=
  { center := quad.center
    flags :=
      match quad.billboard with
      | Billboard.bbNone => 0
      | Billboard.viewY => GpuQuadFlags.BILLBOARD
      | Billboard.worldY => GpuQuadFlags.BILLBOARD ||| GpuQuadFlags.BILLBOARD_WORLD_Y
      | Billboard.fixedScreenSize => GpuQuadFlags.BILLBOARD_FIXED_SCREEN_SIZE
    half_extents := quad.half_extents.extend 0
    color := quad.color.as_rgba_f32 }

/-- Modelled from the spec: the flag-bit table of §3
(`None` ↦ 0, `ViewFacing` ↦ bit0, `WorldYFacing` ↦ bit0|bit1,
`FixedScreenSize` ↦ bit2 alone), used as the reference the encoder is
compared against. -/
def specFlagBits : Billboard → Nat
  | Billboard.bbNone => 0
  | Billboard.viewY => 1 <<< 0
  | Billboard.worldY => (1 <<< 0) ||| (1 <<< 1)
  | Billboard.fixedScreenSize => 1 <<< 2

/-- Modelled from the spec: decoding of the flag bit field back to the
billboard variant (bit 2 = fixed-screen-size, bit 0 = billboard enabled,
bit 1 = world-Y-pinned). -/
def decodeBillboard (flags : Nat) : Billboard :=
  if flags.testBit 2 then Billboard.fixedScreenSize
  else if flags.testBit 0 then
    if flags.testBit 1 then Billboard.worldY else Billboard.viewY
  else Billboard.bbNone

/-! ## Index synthesis

The loop body of `prepare_quads` (lines 247-255): for each instance `i`,
`base = (i * 4) as u32` and the six pushed entries are `base+2, base, base+1,
base+1, base+3, base+2`, each computed in `u32` (wrapping) arithmetic. -/

/-- One instance's sextuple of synthesized indices, in `u32` arithmetic. -/
def quadIndicesAt (i : Nat) : List Nat :=
  [(i * 4 % u32Mod + 2) % u32Mod,
   i * 4 % u32Mod,
   (i * 4 % u32Mod + 1) % u32Mod,
   (i * 4 % u32Mod + 1) % u32Mod,
   (i * 4 % u32Mod + 3) % u32Mod,
   (i * 4 % u32Mod + 2) % u32Mod]

/-- The full synthesized index sequence for `n` instances (the `for i in
0..n_instances` loop of `prepare_quads`). -/
def generateIndices (n : Nat) : List Nat :=
  (List.range n).flatMap quadIndicesAt

/-- Source `gpu_quads.index_count = n_instances as u32 * 6`: the cast
truncates modulo `2^32` and the `u32` multiplication wraps modulo `2^32`. -/
def indexCountU32 (n : Nat) : Nat := n % u32Mod * 6 % u32Mod

theorem generateIndices_succ (n : Nat) :
    generateIndices (n + 1) = generateIndices n ++ quadIndicesAt n := by
  simp [generateIndices, List.range_succ]

theorem quadIndicesAt_length (i : Nat) : (quadIndicesAt i).length = 6 := rfl

theorem generateIndices_length (n : Nat) : (generateIndices n).length = 6 * n := by
  induction n with
  | zero => rfl
  | succ m ih =>
    rw [generateIndices_succ, List.length_append, ih, quadIndicesAt_length]
    ring

theorem generateIndices_drop_take {n i : Nat} (h : i < n) :
    ((generateIndices n).drop (6 * i)).take 6 = quadIndicesAt i := by
  induction n with
  | zero => omega
  | succ m ih =>
    rw [generateIndices_succ, List.drop_append_eq_append_drop,
      List.take_append_eq_append_take]
    rcases Nat.lt_or_ge i m with hlt | hge
    · have hlen : (generateIndices m).length = 6 * m := generateIndices_length m
      have hdroplen : ((generateIndices m).drop (6 * i)).length = 6 * m - 6 * i := by
        rw [List.length_drop, hlen]
      rw [ih hlt]
      have h6 : 6 - ((generateIndices m).drop (6 * i)).length = 0 := by
        rw [hdroplen]; omega
      rw [h6, List.take_zero, List.append_nil]
    · have hieq : i = m := by omega
      subst hieq
      have hlen : (generateIndices i).length = 6 * i := generateIndices_length i
      have hdrop : (generateIndices i).drop (6 * i) = [] := by
        apply List.drop_eq_nil_of_le
        rw [hlen]
      rw [hdrop]
      simp [hlen, quadIndicesAt]

theorem quadIndicesAt_mod_form (i : Nat) :
    quadIndicesAt i =
      [(4 * i + 2) % u32Mod, 4 * i % u32Mod, (4 * i + 1) % u32Mod,
       (4 * i + 1) % u32Mod, (4 * i + 3) % u32Mod, (4 * i + 2) % u32Mod] := by
  simp only [quadIndicesAt, Nat.mod_add_mod, Nat.mul_comm i 4]

theorem quadIndicesAt_exact (i : Nat) (h : 4 * i + 3 < u32Mod) :
    quadIndicesAt i = [4 * i + 2, 4 * i, 4 * i + 1, 4 * i + 1, 4 * i + 3, 4 * i + 2] := by
  rw [quadIndicesAt_mod_form]
  have h2 : (4 * i + 2) % u32Mod = 4 * i + 2 := Nat.mod_eq_of_lt (by omega)
  have h0 : 4 * i % u32Mod = 4 * i := Nat.mod_eq_of_lt (by omega)
  have h1 : (4 * i + 1) % u32Mod = 4 * i + 1 := Nat.mod_eq_of_lt (by omega)
  have h3 : (4 * i + 3) % u32Mod = 4 * i + 3 := Nat.mod_eq_of_lt h
  rw [h0, h1, h2, h3]

theorem generateIndices_entry_lt {n : Nat} :
    ∀ x ∈ generateIndices n, x < 4 * n := by
  intro x hx
  rw [generateIndices, List.mem_flatMap] at hx
  obtain ⟨i, hi, hxi⟩ := hx
  rw [List.mem_range] at hi
  have hbase : i * 4 % u32Mod ≤ 4 * i := by
    calc i * 4 % u32Mod ≤ i * 4 := Nat.mod_le _ _
    _ = 4 * i := Nat.mul_comm i 4
  have hb2 : (i * 4 % u32Mod + 2) % u32Mod ≤ 4 * i + 2 :=
    le_trans (Nat.mod_le _ _) (by omega)
  have hb1 : (i * 4 % u32Mod + 1) % u32Mod ≤ 4 * i + 1 :=
    le_trans (Nat.mod_le _ _) (by omega)
  have hb3 : (i * 4 % u32Mod + 3) % u32Mod ≤ 4 * i + 3 :=
    le_trans (Nat.mod_le _ _) (by omega)
  simp only [quadIndicesAt, List.mem_cons, List.not_mem_nil, or_false] at hxi
  rcases hxi with h | h | h | h | h | h <;> subst h <;> omega

/-! ## Render-world state model

One frame of the render app is modelled as
extract (`ExtractResourcePlugin::<Quads>` + change detection) →
`prepare_quads` → `queue_quads` → phase rendering (`DrawQuads`).
GPU allocations and driver objects (buffers, bind groups) are identified by
freshly drawn `Nat` identifiers, so identity change is observable. -/

/-- Byte size of one encoded `GpuQuad` record (12 words of 4 bytes). -/
def gpuQuadByteSize : Nat := 48

/-- Modelled after bevy's `StorageBuffer`, the library type the source keeps
its instances in: `array` is the CPU-side value, `buffer` the identity of the
current GPU allocation, `capacity` its byte size, and `changedFlag` the
internal flag that `set_label` (called in `GpuQuads::default`) sets. -/
structure StorageBufferModel where
  array : List GpuQuad
  buffer : Option Nat
  capacity : Nat
  changedFlag : Bool
deriving DecidableEq, Repr

/-- Modelled after bevy's `StorageBuffer::write_buffer`: a fresh GPU
allocation (new identity) is created when the serialized size exceeds the
current capacity or the changed flag is set; otherwise the existing
allocation is rewritten in place, keeping its identity. Returns the updated
buffer and the next unused identifier. -/
def StorageBufferModel.write_buffer (sb : StorageBufferModel) (freshId : Nat) :
    StorageBufferModel × Nat :=
  if sb.capacity < gpuQuadByteSize * sb.array.length ∨ sb.changedFlag then
    ({ sb with buffer := some freshId,
               capacity := gpuQuadByteSize * sb.array.length,
               changedFlag := false }, freshId + 1)
  else (sb, freshId)

/-- Source `struct GpuQuads` resource. `bind_group_buffer` additionally
records which allocation the cached bind group was built over (that is what
`create_bind_group` receives via `instances.buffer().unwrap()`). -/
structure GpuQuadsModel where
  index_buffer : Option Nat
  index_contents : List Nat
  index_count : Nat
  instances : StorageBufferModel
  bind_group : Option Nat
  bind_group_buffer : Option Nat
deriving DecidableEq, Repr

/-- Source `impl Default for GpuQuads`: empty state; `set_label` on the fresh
`StorageBuffer` sets its internal changed flag. -/
def GpuQuadsModel.default : GpuQuadsModel :=
  { index_buffer := Option.none
    index_contents := []
    index_count := 0
    instances := { array := [], buffer := Option.none, capacity := 0, changedFlag := true }
    bind_group := Option.none
    bind_group_buffer := Option.none }

/-- Result of the extract stage: the render-world `Quads` resource and its
change-detection flag as `prepare_quads` will observe it. -/
structure ExtractResult where
  quads : Option (List Quad)
  changed : Bool
deriving DecidableEq, Repr

/-- Modelled after bevy's `extract_resource::<Quads>` system: when the
main-world resource exists it is copied into the render world if it changed
this frame (or was never extracted before); otherwise the render-world copy
is left as is and is not flagged changed. -/
def extractQuads (mainQ : Option (List Quad)) (mainChanged : Bool)
    (renderQ : Option (List Quad)) : ExtractResult :=
  match mainQ with
  | Option.none => { quads := renderQ, changed := false }
  | some d =>
    match renderQ with
    | some r =>
      if mainChanged then { quads := some d, changed := true }
      else { quads := some r, changed := false }
    | Option.none => { quads := some d, changed := true }

/-- Result of `prepare_quads`: updated `GpuQuads` resource, next unused
identifier, whether a `GpuQuadsMarker` was spawned, and whether the sync body
ran (equivalently, whether the `GpuQuads` resource was written, which is what
`queue_quads` later observes as `is_changed`). -/
structure PrepareResult where
  gpuQuads : Option GpuQuadsModel
  nextId : Nat
  marker : Bool
  synced : Bool
deriving DecidableEq, Repr

/-- Source `prepare_quads`: does nothing when the `Quads` resource is absent;
otherwise, when `Quads` is flagged changed, pushes an encoded record for
every quad onto the existing instance array (the source never clears it),
sets `index_count`, regenerates and recreates the index buffer, and calls
`write_buffer` on the storage buffer; a `GpuQuadsMarker` entity is spawned
whenever `Quads` exists. -/
def prepareQuads (quads : Option (List Quad)) (quadsChanged : Bool)
    (gpu : Option GpuQuadsModel) (freshId : Nat) : PrepareResult :=
  match quads with
  | Option.none =>
    { gpuQuads := gpu, nextId := freshId, marker := false, synced := false }
  | some data =>
    if quadsChanged then
      let g0 := gpu.getD GpuQuadsModel.default
      let arr := g0.instances.array ++ data.map GpuQuad.fromQuad
      let wr := StorageBufferModel.write_buffer { g0.instances with array := arr } (freshId + 1)
      { gpuQuads := some
          { index_buffer := some freshId
            index_contents := generateIndices arr.length
            index_count := indexCountU32 arr.length
            instances := wr.1
            bind_group := g0.bind_group
            bind_group_buffer := g0.bind_group_buffer }
        nextId := wr.2
        marker := true
        synced := true }
    else { gpuQuads := gpu, nextId := freshId, marker := true, synced := false }

/-- Result of `queue_quads`: updated `GpuQuads`, next unused identifier, the
view bind group built this frame, and whether the quads bind group was
recreated. -/
structure QueueResult where
  gpuQuads : Option GpuQuadsModel
  nextId : Nat
  viewBindGroup : Nat
  rebuilt : Bool
deriving DecidableEq, Repr

/-- Source `queue_quads`: unconditionally creates a fresh view bind group
every frame; recreates the quads bind group exactly when the `GpuQuads`
resource exists and is flagged changed, binding the storage buffer's current
allocation. -/
def queueQuads (gpu : Option GpuQuadsModel) (gpuChanged : Bool) (freshId : Nat) :
    QueueResult :=
  match gpu with
  | Option.none =>
    { gpuQuads := Option.none, nextId := freshId + 1, viewBindGroup := freshId,
      rebuilt := false }
  | some g =>
    if gpuChanged then
      { gpuQuads := some { g with bind_group := some (freshId + 1),
                                  bind_group_buffer := g.instances.buffer }
        nextId := freshId + 2
        viewBindGroup := freshId
        rebuilt := true }
    else
      { gpuQuads := some g, nextId := freshId + 1, viewBindGroup := freshId,
        rebuilt := false }

/-- Commands recorded on the tracked render pass. -/
inductive Cmd
  | setPipeline
  | setViewBindGroup (slot : Nat) (bindGroup : Nat) (dynamicOffset : Nat)
  | setQuadsBindGroup (slot : Nat) (bindGroup : Nat)
  | setIndexBuffer (buffer : Nat)
  | drawIndexed (indexCount : Nat) (instanceCount : Nat)
deriving DecidableEq, Repr

/-- Whether a command is an indexed draw. -/
def Cmd.isDraw : Cmd → Bool
  | Cmd.drawIndexed _ _ => true
  | _ => false

/-- Source `DrawQuads` render-command tuple for one phase item:
`SetItemPipeline`, `SetQuadsViewBindGroup::<0>`, `SetGpuQuadsBindGroup::<1>`
(which unwraps `bind_group`), then `DrawVertexPulledQuads` (which unwraps
`index_buffer`, binds it and issues `draw_indexed(0..index_count, 0, 0..1)`).
`Option.none` models a panic of one of the unwraps (or a missing
`GpuQuads` resource for the `SRes` parameter). -/
def drawQuadsCommands (gpu : Option GpuQuadsModel) (viewBindGroup viewOffset : Nat) :
    Option (List Cmd) :=
  match gpu with
  | Option.none => Option.none
  | some g =>
    match g.bind_group, g.index_buffer with
    | some bg, some ib =>
      some [Cmd.setPipeline,
            Cmd.setViewBindGroup 0 viewBindGroup viewOffset,
            Cmd.setQuadsBindGroup 1 bg,
            Cmd.setIndexBuffer ib,
            Cmd.drawIndexed g.index_count 1]
    | _, _ => Option.none

/-- Rendering of one view's `RenderPhase<QuadsPhaseItem>`: each queued phase
item runs the `DrawQuads` command tuple. -/
def renderPhase : Nat → Option GpuQuadsModel → Nat → Nat → Option (List Cmd)
  | 0, _, _, _ => some []
  | Nat.succ k, gpu, vbg, off =>
    match drawQuadsCommands gpu vbg off, renderPhase k gpu vbg off with
    | some cs, some rest => some (cs ++ rest)
    | _, _ => Option.none

/-- Observable events of one frame. -/
structure FrameTrace where
  quadsChanged : Bool
  synced : Bool
  marker : Bool
  rebuilt : Bool
  phaseLen : Nat
  bufBefore : Option Nat
  bufAfter : Option Nat
  commands : Option (List Cmd)
deriving DecidableEq, Repr

/-- Persistent simulation state: the main-world `Quads` resource, its
render-world extracted copy, the `GpuQuads` resource, and the next unused
GPU-object identifier. -/
structure Sim where
  mainQuads : Option (List Quad)
  quads : Option (List Quad)
  gpuQuads : Option GpuQuadsModel
  nextId : Nat
deriving DecidableEq, Repr

/-- Initial state: no resources exist yet. -/
def Sim.init : Sim :=
  { mainQuads := Option.none, quads := Option.none, gpuQuads := Option.none,
    nextId := 0 }

/-- Per-frame action of the external producer on the main-world `Quads`
resource: leave it alone, or insert/replace it wholesale. -/
inductive MainAction
  | keep
  | replace (qs : List Quad)
deriving DecidableEq, Repr

/-- State and trace of one frame. -/
structure FrameResult where
  sim : Sim
  trace : FrameTrace
deriving DecidableEq, Repr

/-- One frame for one view: main-world update, extract, `prepare_quads`,
`queue_quads`, then rendering of the view's phase. -/
def frame (s : Sim) (act : MainAction) (viewOffset : Nat) : FrameResult :=
  let mq := match act with
    | MainAction.keep => s.mainQuads
    | MainAction.replace qs => some qs
  let mainChanged := match act with
    | MainAction.keep => false
    | MainAction.replace _ => true
  let ex := extractQuads mq mainChanged s.quads
  let pr := prepareQuads ex.quads ex.changed s.gpuQuads s.nextId
  let qu := queueQuads pr.gpuQuads pr.synced pr.nextId
  let phaseLen := if pr.marker then 1 else 0
  { sim :=
      { mainQuads := mq, quads := ex.quads, gpuQuads := qu.gpuQuads,
        nextId := qu.nextId }
    trace :=
      { quadsChanged := ex.changed
        synced := pr.synced
        marker := pr.marker
        rebuilt := qu.rebuilt
        phaseLen := phaseLen
        bufBefore := Option.bind s.gpuQuads (fun g => g.instances.buffer)
        bufAfter := Option.bind qu.gpuQuads (fun g => g.instances.buffer)
        commands := renderPhase phaseLen qu.gpuQuads qu.viewBindGroup viewOffset } }

/-- Run a sequence of frames from a given state, collecting the traces. -/
def runFrom (s : Sim) : List MainAction → Sim × List FrameTrace
  | [] => (s, [])
  | a :: rest =>
    let r := frame s a 0
    let rr := runFrom r.sim rest
    (rr.1, r.trace :: rr.2)

/-- Run a sequence of frames from the initial state. -/
def runActs (acts : List MainAction) : Sim × List FrameTrace :=
  runFrom Sim.init acts

/-- A concrete sample quad, as produced by `Quad::random` in `setup`. -/
def q0 : Quad :=
  { color := ⟨1, 1, 1, 1⟩, center := ⟨0, 0, 0⟩, half_extents := ⟨1, 1, 1⟩,
    billboard := Billboard.viewY }

/-! ## Claims about the pure encoder and index synthesis -/

/-- C4: the encoder maps the billboard variant to the flags bit field exactly
as the spec's table states (`None` ↦ 0, `ViewFacing` ↦ bit 0 alone,
`WorldYFacing` ↦ bit 0 | bit 1, `FixedScreenSize` ↦ bit 2 alone), and
decoding the flag bits of an elementwise-encoded quad sequence recovers each
original billboard variant exactly. -/
theorem C4_flags_encoding_roundtrip :
    (∀ q : Quad, (GpuQuad.fromQuad q).flags = specFlagBits q.billboard) ∧
    (∀ q : Quad, decodeBillboard (GpuQuad.fromQuad q).flags = q.billboard) ∧
    (∀ qs : List Quad,
      (qs.map GpuQuad.fromQuad).map (fun g => decodeBillboard g.flags) =
        qs.map Quad.billboard) := by
  have hflags : ∀ q : Quad, (GpuQuad.fromQuad q).flags = specFlagBits q.billboard := by
    rintro ⟨c, ce, he, bb⟩
    cases bb <;> rfl
  have hdec : ∀ q : Quad, decodeBillboard (GpuQuad.fromQuad q).flags = q.billboard := by
    intro q
    rw [hflags q]
    cases q.billboard <;> decide
  refine ⟨hflags, hdec, fun qs => ?_⟩
  induction qs with
  | nil => rfl
  | cons q qs ih => simp only [List.map_cons, hdec q, ih]

/-- C7: the encoder is a total pure function over all four billboard
variants, preserving `center` as 3 floats, storing `half_extents` as 4
floats with xyz populated and w = 0, and storing `color` as 4 floats. -/
theorem C7_encoder_structure (q : Quad) :
    (GpuQuad.fromQuad q).center = q.center ∧
    (GpuQuad.fromQuad q).half_extents =
      ⟨q.half_extents.x, q.half_extents.y, q.half_extents.z, 0⟩ ∧
    (GpuQuad.fromQuad q).color = [q.color.r, q.color.g, q.color.b, q.color.a] ∧
    ((GpuQuad.fromQuad q).color).length = 4 :=
  ⟨rfl, rfl, rfl, rfl⟩

/-- C5 counterexample: at instance count `n = 2^30 + 1`, the sextuple for
instance `i = 2^30` is not `[4i+2, 4i, 4i+1, 4i+1, 4i+3, 4i+2]` — the `u32`
arithmetic of the source wraps `4i` to 0 there, so the written sextuple is
`[2, 0, 1, 1, 3, 2]`. -/
theorem C5_counterexample :
    ((generateIndices (2 ^ 30 + 1)).drop (6 * 2 ^ 30)).take 6 ≠
      [4 * 2 ^ 30 + 2, 4 * 2 ^ 30, 4 * 2 ^ 30 + 1, 4 * 2 ^ 30 + 1,
       4 * 2 ^ 30 + 3, 4 * 2 ^ 30 + 2] := by
  have h : ((generateIndices (2 ^ 30 + 1)).drop (6 * 2 ^ 30)).take 6 =
      quadIndicesAt (2 ^ 30) :=
    generateIndices_drop_take (by omega)
  rw [h, quadIndicesAt_mod_form]
  intro hc
  simp only [List.cons.injEq] at hc
  have h2 : (4 * 2 ^ 30 + 2) % u32Mod = 2 := by norm_num [u32Mod]
  have h1 := hc.1
  rw [h2] at h1
  norm_num at h1

/-- C5 (amended): for every instance count `n`, the synthesized index
sequence has length exactly `6n` and every entry is `< 4n`; the sextuple for
instance `i` equals `[4i+2, 4i, 4i+1, 4i+1, 4i+3, 4i+2]` with each entry
reduced modulo `2^32`, hence equals those values exactly whenever
`4i + 3 < 2^32` (in particular for every `i` whenever `n ≤ 2^30`); for
`n = 1` the index buffer is `[2, 0, 1, 1, 3, 2]`. -/
theorem C5_generate_amended (n i : Nat) (h : i < n) :
    (generateIndices n).length = 6 * n ∧
    (∀ x ∈ generateIndices n, x < 4 * n) ∧
    ((generateIndices n).drop (6 * i)).take 6 =
      [(4 * i + 2) % u32Mod, 4 * i % u32Mod, (4 * i + 1) % u32Mod,
       (4 * i + 1) % u32Mod, (4 * i + 3) % u32Mod, (4 * i + 2) % u32Mod] ∧
    (4 * i + 3 < u32Mod →
      ((generateIndices n).drop (6 * i)).take 6 =
        [4 * i + 2, 4 * i, 4 * i + 1, 4 * i + 1, 4 * i + 3, 4 * i + 2]) ∧
    generateIndices 1 = [2, 0, 1, 1, 3, 2] := by
  refine ⟨generateIndices_length n, generateIndices_entry_lt, ?_, ?_, by decide⟩
  · rw [generateIndices_drop_take h, quadIndicesAt_mod_form]
  · intro hfit
    rw [generateIndices_drop_take h, quadIndicesAt_exact i hfit]

/-- C5 (amended) witness: instantiation at `n = 1`, `i = 0`. -/
theorem C5_generate_amended_witness :
    (0 : Nat) < 1 ∧
    ((generateIndices 1).length = 6 * 1 ∧
     (∀ x ∈ generateIndices 1, x < 4 * 1) ∧
     ((generateIndices 1).drop (6 * 0)).take 6 =
       [(4 * 0 + 2) % u32Mod, 4 * 0 % u32Mod, (4 * 0 + 1) % u32Mod,
        (4 * 0 + 1) % u32Mod, (4 * 0 + 3) % u32Mod, (4 * 0 + 2) % u32Mod] ∧
     (4 * 0 + 3 < u32Mod →
       ((generateIndices 1).drop (6 * 0)).take 6 =
         [4 * 0 + 2, 4 * 0, 4 * 0 + 1, 4 * 0 + 1, 4 * 0 + 3, 4 * 0 + 2]) ∧
     generateIndices 1 = [2, 0, 1, 1, 3, 2]) :=
  ⟨by decide, C5_generate_amended 1 0 (by decide)⟩

/-- C9: the stored draw index count is `(6n)` truncated to 32 bits and each
per-instance base index is `(4i)` truncated to 32 bits; these equal the exact
values `6n` and `4i` precisely while they fit in `uint32`, all index-buffer
entries are exact for instance counts `n < 2^30`, and beyond that the values
wrap modulo `2^32`. -/
theorem C9_index_truncation (n i : Nat) (h : i < n) :
    indexCountU32 n = 6 * n % u32Mod ∧
    (indexCountU32 n = 6 * n ↔ 6 * n < u32Mod) ∧
    ((generateIndices n).drop (6 * i)).take 6 =
      [(4 * i + 2) % u32Mod, 4 * i % u32Mod, (4 * i + 1) % u32Mod,
       (4 * i + 1) % u32Mod, (4 * i + 3) % u32Mod, (4 * i + 2) % u32Mod] ∧
    (4 * i % u32Mod = 4 * i ↔ 4 * i < u32Mod) ∧
    (n < 2 ^ 30 →
      ((generateIndices n).drop (6 * i)).take 6 =
        [4 * i + 2, 4 * i, 4 * i + 1, 4 * i + 1, 4 * i + 3, 4 * i + 2]) := by
  have hm : 0 < u32Mod := by norm_num [u32Mod]
  have hcount : indexCountU32 n = 6 * n % u32Mod := by
    rw [indexCountU32, Nat.mod_mul_mod, Nat.mul_comm]
  refine ⟨hcount, ⟨?_, ?_⟩, ?_, ⟨?_, ?_⟩, ?_⟩
  · intro he
    rw [hcount] at he
    have hlt := Nat.mod_lt (6 * n) hm
    rw [he] at hlt
    exact hlt
  · intro hlt
    rw [hcount, Nat.mod_eq_of_lt hlt]
  · rw [generateIndices_drop_take h, quadIndicesAt_mod_form]
  · intro he
    have hlt := Nat.mod_lt (4 * i) hm
    rw [he] at hlt
    exact hlt
  · intro hlt
    exact Nat.mod_eq_of_lt hlt
  · intro hn
    have h30 : (2 : Nat) ^ 30 = 1073741824 := by norm_num
    have h32 : u32Mod = 4294967296 := by norm_num [u32Mod]
    rw [generateIndices_drop_take h, quadIndicesAt_exact i (by omega)]

/-- C9 witness: instantiation at `n = 1`, `i = 0`. -/
theorem C9_index_truncation_witness :
    (0 : Nat) < 1 ∧
    (indexCountU32 1 = 6 * 1 % u32Mod ∧
     (indexCountU32 1 = 6 * 1 ↔ 6 * 1 < u32Mod) ∧
     ((generateIndices 1).drop (6 * 0)).take 6 =
       [(4 * 0 + 2) % u32Mod, 4 * 0 % u32Mod, (4 * 0 + 1) % u32Mod,
        (4 * 0 + 1) % u32Mod, (4 * 0 + 3) % u32Mod, (4 * 0 + 2) % u32Mod] ∧
     (4 * 0 % u32Mod = 4 * 0 ↔ 4 * 0 < u32Mod) ∧
     (1 < 2 ^ 30 →
       ((generateIndices 1).drop (6 * 0)).take 6 =
         [4 * 0 + 2, 4 * 0, 4 * 0 + 1, 4 * 0 + 1, 4 * 0 + 3, 4 * 0 + 2])) :=
  ⟨by decide, C9_index_truncation 1 0 (by decide)⟩

/-! ## Stage equations and frame invariants -/

theorem prepareQuads_none (ch : Bool) (g : Option GpuQuadsModel) (fid : Nat) :
    prepareQuads Option.none ch g fid =
      { gpuQuads := g, nextId := fid, marker := false, synced := false } := rfl

theorem prepareQuads_unchanged (d : List Quad) (g : Option GpuQuadsModel) (fid : Nat) :
    prepareQuads (some d) false g fid =
      { gpuQuads := g, nextId := fid, marker := true, synced := false } := rfl

theorem prepareQuads_changed_synced (d : List Quad) (g : Option GpuQuadsModel) (fid : Nat) :
    (prepareQuads (some d) true g fid).synced = true := rfl

theorem prepareQuads_changed_gpu (d : List Quad) (g : Option GpuQuadsModel) (fid : Nat) :
    (prepareQuads (some d) true g fid).gpuQuads =
      some { index_buffer := some fid
             index_contents :=
               generateIndices ((g.getD GpuQuadsModel.default).instances.array ++
                 d.map GpuQuad.fromQuad).length
             index_count :=
               indexCountU32 ((g.getD GpuQuadsModel.default).instances.array ++
                 d.map GpuQuad.fromQuad).length
             instances :=
               (StorageBufferModel.write_buffer
                 { (g.getD GpuQuadsModel.default).instances with
                     array := (g.getD GpuQuadsModel.default).instances.array ++
                       d.map GpuQuad.fromQuad } (fid + 1)).1
             bind_group := (g.getD GpuQuadsModel.default).bind_group
             bind_group_buffer := (g.getD GpuQuadsModel.default).bind_group_buffer } := rfl

theorem queueQuads_none (ch : Bool) (fid : Nat) :
    queueQuads Option.none ch fid =
      { gpuQuads := Option.none, nextId := fid + 1, viewBindGroup := fid,
        rebuilt := false } := rfl

theorem queueQuads_unchanged (g : GpuQuadsModel) (fid : Nat) :
    queueQuads (some g) false fid =
      { gpuQuads := some g, nextId := fid + 1, viewBindGroup := fid,
        rebuilt := false } := rfl

theorem queueQuads_changed (g : GpuQuadsModel) (fid : Nat) :
    queueQuads (some g) true fid =
      { gpuQuads := some { g with bind_group := some (fid + 1),
                                  bind_group_buffer := g.instances.buffer }
        nextId := fid + 2, viewBindGroup := fid, rebuilt := true } := rfl

theorem extractQuads_unchanged (mq : Option (List Quad)) (mc : Bool)
    (rq : Option (List Quad)) (h : (extractQuads mq mc rq).changed = false) :
    (extractQuads mq mc rq).quads = rq := by
  cases mq with
  | none => rfl
  | some d =>
    cases rq with
    | none => simp [extractQuads] at h
    | some r => cases mc <;> simp [extractQuads] at h ⊢

/-- The quads bind group is recreated in `queue_quads` exactly when
`prepare_quads` ran a sync this frame; without a rebuild the `GpuQuads`
resource (hence the cached bind group) passes through unchanged. -/
theorem queue_after_prepare (exq : Option (List Quad)) (exch : Bool)
    (g : Option GpuQuadsModel) (fid : Nat) :
    ((queueQuads (prepareQuads exq exch g fid).gpuQuads
        (prepareQuads exq exch g fid).synced
        (prepareQuads exq exch g fid).nextId).rebuilt = true ↔
      (prepareQuads exq exch g fid).synced = true) ∧
    ((queueQuads (prepareQuads exq exch g fid).gpuQuads
        (prepareQuads exq exch g fid).synced
        (prepareQuads exq exch g fid).nextId).rebuilt = false →
      (queueQuads (prepareQuads exq exch g fid).gpuQuads
        (prepareQuads exq exch g fid).synced
        (prepareQuads exq exch g fid).nextId).gpuQuads = g) := by
  cases exq with
  | none => cases g <;> simp [prepareQuads, queueQuads]
  | some d =>
    cases exch with
    | false => cases g <;> simp [prepareQuads, queueQuads]
    | true =>
      rw [prepareQuads_changed_gpu, prepareQuads_changed_synced, queueQuads_changed]
      simp

theorem extractQuads_changed_of_replace (d : List Quad) (rq : Option (List Quad)) :
    (extractQuads (some d) true rq).changed = true := by
  cases rq <;> simp [extractQuads]

theorem indexCountU32_eq (n : Nat) : indexCountU32 n = 6 * n % u32Mod := by
  rw [indexCountU32, Nat.mod_mul_mod, Nat.mul_comm]

theorem drawQuadsCommands_eq (g : GpuQuadsModel) (vb off bg ib : Nat)
    (hbg : g.bind_group = some bg) (hib : g.index_buffer = some ib) :
    drawQuadsCommands (some g) vb off =
      some [Cmd.setPipeline, Cmd.setViewBindGroup 0 vb off,
            Cmd.setQuadsBindGroup 1 bg, Cmd.setIndexBuffer ib,
            Cmd.drawIndexed g.index_count 1] := by
  simp [drawQuadsCommands, hbg, hib]

theorem renderPhase_one (g : GpuQuadsModel) (vb off bg ib : Nat)
    (hbg : g.bind_group = some bg) (hib : g.index_buffer = some ib) :
    renderPhase 1 (some g) vb off =
      some [Cmd.setPipeline, Cmd.setViewBindGroup 0 vb off,
            Cmd.setQuadsBindGroup 1 bg, Cmd.setIndexBuffer ib,
            Cmd.drawIndexed g.index_count 1] := by
  simp [renderPhase, drawQuadsCommands_eq g vb off bg ib hbg hib]

/-- Pipeline lemma: facts about `queue_quads` composed after `prepare_quads`,
for an arbitrary extracted `Quads` value and change flag. When the extracted
resource exists, the resulting `GpuQuads` exists with a populated bind group
and index buffer (given that an unchanged frame starts from such a state),
and the phase rendering emits a command list without panicking. -/
theorem pipeline_fields (exq : Option (List Quad)) (exch : Bool)
    (g : Option GpuQuadsModel) (fid off : Nat)
    (hunch : exch = false → ∀ d, exq = some d →
      ∃ g0, g = some g0 ∧ g0.bind_group.isSome = true ∧
        g0.index_buffer.isSome = true) :
    (∀ d, exq = some d →
      ∃ g1, (queueQuads (prepareQuads exq exch g fid).gpuQuads
              (prepareQuads exq exch g fid).synced
              (prepareQuads exq exch g fid).nextId).gpuQuads = some g1 ∧
            g1.bind_group.isSome = true ∧ g1.index_buffer.isSome = true) ∧
    (renderPhase (if (prepareQuads exq exch g fid).marker then 1 else 0)
       (queueQuads (prepareQuads exq exch g fid).gpuQuads
         (prepareQuads exq exch g fid).synced
         (prepareQuads exq exch g fid).nextId).gpuQuads
       (queueQuads (prepareQuads exq exch g fid).gpuQuads
         (prepareQuads exq exch g fid).synced
         (prepareQuads exq exch g fid).nextId).viewBindGroup off).isSome = true := by
  cases exq with
  | none =>
    rw [prepareQuads_none]
    constructor
    · intro d hd
      exact absurd hd (by simp)
    · cases g with
      | none => simp [queueQuads_none, renderPhase]
      | some g0 => simp [queueQuads_unchanged, renderPhase]
  | some data =>
    cases exch with
    | true =>
      rw [prepareQuads_changed_gpu, prepareQuads_changed_synced]
      constructor
      · intro d hd
        rw [queueQuads_changed]
        exact ⟨_, rfl, rfl, rfl⟩
      · rw [queueQuads_changed]
        have hmarker : (prepareQuads (some data) true g fid).marker = true := rfl
        rw [hmarker, if_pos rfl]
        rw [renderPhase_one _ _ _ _ fid rfl rfl]
        rfl
    | false =>
      obtain ⟨g0, hg0, hbg, hib⟩ := hunch rfl data rfl
      obtain ⟨bg, hbg'⟩ := Option.isSome_iff_exists.mp hbg
      obtain ⟨ib, hib'⟩ := Option.isSome_iff_exists.mp hib
      rw [prepareQuads_unchanged, hg0]
      constructor
      · intro d hd
        exact ⟨g0, by rw [queueQuads_unchanged], hbg, hib⟩
      · rw [queueQuads_unchanged]
        have : (if true then 1 else 0) = 1 := rfl
        rw [if_pos rfl, renderPhase_one g0 _ _ bg ib hbg' hib']
        rfl

/-- Invariant of the persistent render-world state: whenever the render world
holds a `Quads` resource, the `GpuQuads` resource exists and its cached bind
group and index buffer are populated. -/
def SimInv (s : Sim) : Prop :=
  ∀ d, s.quads = some d →
    ∃ g, s.gpuQuads = some g ∧ g.bind_group.isSome = true ∧
      g.index_buffer.isSome = true

theorem SimInv_init : SimInv Sim.init := by
  intro d h
  simp [Sim.init] at h

theorem frame_preserves (s : Sim) (act : MainAction) (off : Nat) (hs : SimInv s) :
    SimInv (frame s act off).sim ∧
      ((frame s act off).trace.commands).isSome = true := by
  cases act with
  | keep =>
    have hp := pipeline_fields (extractQuads s.mainQuads false s.quads).quads
      (extractQuads s.mainQuads false s.quads).changed s.gpuQuads s.nextId off
      (fun hch d hd => by
        rw [extractQuads_unchanged s.mainQuads false s.quads hch] at hd
        exact hs d hd)
    constructor
    · intro d hd
      simp only [frame] at hd ⊢
      exact hp.1 d hd
    · simp only [frame]
      exact hp.2
  | replace qs =>
    have hp := pipeline_fields (extractQuads (some qs) true s.quads).quads
      (extractQuads (some qs) true s.quads).changed s.gpuQuads s.nextId off
      (fun hch => by
        rw [extractQuads_changed_of_replace qs s.quads] at hch
        exact absurd hch (by simp))
    constructor
    · intro d hd
      simp only [frame] at hd ⊢
      exact hp.1 d hd
    · simp only [frame]
      exact hp.2

/-! ## Stateful claims -/

/-- C8: whenever a `QuadsPhaseItem` is queued for a view, the `GpuQuads`
resource exists with `bind_group` and `index_buffer` populated, so the
`unwrap` calls in `SetGpuQuadsBindGroup::render` and
`DrawVertexPulledQuads::render` never panic: every frame of every run from
the initial state produces an actual command list (`Option.isSome`), never
the panic value `Option.none`. -/
theorem C8_no_unwrap_panic (acts : List MainAction) :
    ∀ t ∈ (runActs acts).2, (t.commands).isSome = true := by
  have hrun : ∀ s : Sim, SimInv s → ∀ t ∈ (runFrom s acts).2,
      (t.commands).isSome = true := by
    induction acts with
    | nil =>
      intro s hs t ht
      simp [runFrom] at ht
    | cons a rest ih =>
      intro s hs t ht
      simp only [runFrom] at ht
      rcases List.mem_cons.mp ht with h | h
      · subst h
        exact (frame_preserves s a 0 hs).2
      · exact ih (frame s a 0).sim (frame_preserves s a 0 hs).1 t h
  exact hrun Sim.init SimInv_init

/-- The concrete frame trace of the one-frame run that replaces the store
with one quad (used as the C8 witness input). -/
def sampleTrace : FrameTrace :=
  { quadsChanged := true, synced := true, marker := true, rebuilt := true,
    phaseLen := 1, bufBefore := Option.none, bufAfter := some 1,
    commands := some [Cmd.setPipeline, Cmd.setViewBindGroup 0 2 0,
      Cmd.setQuadsBindGroup 1 3, Cmd.setIndexBuffer 0,
      Cmd.drawIndexed 6 1] }

/-- C8 witness: in the one-frame run that replaces the store with one quad,
the queued phase item renders to a concrete command list without panicking. -/
theorem C8_no_unwrap_panic_witness :
    sampleTrace ∈ (runActs [MainAction.replace [q0]]).2 ∧
    (sampleTrace.commands).isSome = true :=
  ⟨by decide,
   C8_no_unwrap_panic [MainAction.replace [q0]] sampleTrace (by decide)⟩

/-- C10: if the `Quads` resource is absent from the render world,
`prepare_quads` performs no sync and spawns no marker entity, `queue_quads`
adds no `QuadsPhaseItem` to any view's phase, no draw is issued that frame,
and the existing `GpuQuads` state (if any) is left unchanged. -/
theorem C10_absent_quads_noop (s : Sim) (act : MainAction) (off : Nat)
    (h : (frame s act off).sim.quads = Option.none) :
    (frame s act off).sim.gpuQuads = s.gpuQuads ∧
    (frame s act off).trace.synced = false ∧
    (frame s act off).trace.marker = false ∧
    (frame s act off).trace.phaseLen = 0 ∧
    (frame s act off).trace.commands = some [] := by
  cases act with
  | keep =>
    cases hmq : s.mainQuads with
    | none =>
      cases hrq : s.quads with
      | none =>
        cases hg : s.gpuQuads with
        | none =>
          simp [frame, extractQuads, hmq, hrq, hg, prepareQuads, queueQuads,
            renderPhase]
        | some g0 =>
          simp [frame, extractQuads, hmq, hrq, hg, prepareQuads, queueQuads,
            renderPhase]
      | some r =>
        exfalso
        simp [frame, extractQuads, hmq, hrq] at h
    | some m =>
      cases hrq : s.quads with
      | none =>
        exfalso
        simp [frame, extractQuads, hmq, hrq] at h
      | some r =>
        exfalso
        simp [frame, extractQuads, hmq, hrq] at h
  | replace qs =>
    exfalso
    cases hrq : s.quads with
    | none => simp [frame, extractQuads, hrq] at h
    | some r => simp [frame, extractQuads, hrq] at h

/-- C10 witness: the initial state with no producer action has no `Quads`
resource, and the frame is a no-op with an empty command list. -/
theorem C10_absent_quads_noop_witness :
    (frame Sim.init MainAction.keep 0).sim.quads = Option.none ∧
    ((frame Sim.init MainAction.keep 0).sim.gpuQuads = Sim.init.gpuQuads ∧
     (frame Sim.init MainAction.keep 0).trace.synced = false ∧
     (frame Sim.init MainAction.keep 0).trace.marker = false ∧
     (frame Sim.init MainAction.keep 0).trace.phaseLen = 0 ∧
     (frame Sim.init MainAction.keep 0).trace.commands = some []) :=
  ⟨by decide, C10_absent_quads_noop Sim.init MainAction.keep 0 (by decide)⟩

/-- C1 (bug evaluation): `prepare_quads` pushes the encoded store onto the
persisted instance array without clearing it, so after a first sync with 1
quad and a second sync replacing the store with 2 quads, the GPU instance
record count is 3 while the Quad Store length is 2 — the encoded array does
not hold exactly one record per quad currently in the store. -/
theorem C1_sync_append_multiplies :
    ((runActs [MainAction.replace [q0], MainAction.replace [q0, q0]]).1.gpuQuads.map
      (fun g => g.instances.array.length)) = some 3 ∧
    ((runActs [MainAction.replace [q0], MainAction.replace [q0, q0]]).1.quads.map
      List.length) = some 2 :=
  ⟨by decide, by decide⟩

/-- C2 counterexample: with the store replaced by the empty collection, a
phase item is still queued and the recorded command list contains
`draw_indexed` with index count 0 — a zero-length indexed draw IS issued,
contrary to the claim that the draw is skipped entirely. -/
theorem C2_zero_draw_counterexample :
    ((runActs [MainAction.replace []]).2.map FrameTrace.commands) =
      [some [Cmd.setPipeline, Cmd.setViewBindGroup 0 2 0,
             Cmd.setQuadsBindGroup 1 3, Cmd.setIndexBuffer 0,
             Cmd.drawIndexed 0 1]] := by
  decide

/-- C2 (amended): the renderer does not skip empty draws; whenever the
`DrawQuads` command tuple runs, it unconditionally emits the indexed draw
with the current `index_count` — in particular a defined no-op
`draw_indexed` with index count 0 when no quads exist. -/
theorem C2_draw_not_skipped (g : GpuQuadsModel) (vb off bg ib : Nat)
    (hbg : g.bind_group = some bg) (hib : g.index_buffer = some ib) :
    drawQuadsCommands (some g) vb off =
      some [Cmd.setPipeline, Cmd.setViewBindGroup 0 vb off,
            Cmd.setQuadsBindGroup 1 bg, Cmd.setIndexBuffer ib,
            Cmd.drawIndexed g.index_count 1] :=
  drawQuadsCommands_eq g vb off bg ib hbg hib

/-- An empty-store `GpuQuads` state whose bind group and index buffer exist
(zero instances, `index_count = 0`), used as the C2 witness input. -/
def gpuQuadsEmptyPopulated : GpuQuadsModel :=
  { GpuQuadsModel.default with bind_group := some 5, index_buffer := some 7 }

/-- C2 (amended) witness: a populated `GpuQuads` state with zero instances
still emits the draw, with index count 0. -/
theorem C2_draw_not_skipped_witness :
    (gpuQuadsEmptyPopulated.bind_group = some 5 ∧
     gpuQuadsEmptyPopulated.index_buffer = some 7) ∧
    drawQuadsCommands (some gpuQuadsEmptyPopulated) 3 4 =
      some [Cmd.setPipeline, Cmd.setViewBindGroup 0 3 4,
            Cmd.setQuadsBindGroup 1 5, Cmd.setIndexBuffer 7,
            Cmd.drawIndexed 0 1] :=
  ⟨⟨rfl, rfl⟩, C2_draw_not_skipped gpuQuadsEmptyPopulated 3 4 5 7 rfl rfl⟩

/-- C3 counterexample: replacing the store with one quad (frame 1) and then
with the empty collection (frame 2) rebuilds the quads bind group on both
frames, although the storage buffer's allocation identity (buffer id 1) does
not change on frame 2 — the binding is rebuilt because the resource content
was flagged changed, without any buffer-identity change, contrary to the
claim. -/
theorem C3_rebuild_counterexample :
    ((runActs [MainAction.replace [q0], MainAction.replace []]).2.map
      (fun t => (t.rebuilt, t.bufBefore, t.bufAfter))) =
      [(true, Option.none, some 1), (true, some 1, some 1)] := by
  decide

/-- C3 (amended): the quads bind group is rebuilt exactly on frames where
`prepare_quads` ran a sync (the `GpuQuads` resource was written), which can
happen without the underlying buffer identity changing; on frames without a
sync the cached binding object is returned unchanged (no redundant rebuild,
at most one rebuild per frame). -/
theorem C3_rebuild_amended (s : Sim) (act : MainAction) (off : Nat) :
    ((frame s act off).trace.rebuilt = true ↔
      (frame s act off).trace.synced = true) ∧
    ((frame s act off).trace.rebuilt = false →
      Option.map GpuQuadsModel.bind_group ((frame s act off).sim.gpuQuads) =
        Option.map GpuQuadsModel.bind_group s.gpuQuads) := by
  cases act with
  | keep =>
    have h := queue_after_prepare (extractQuads s.mainQuads false s.quads).quads
      (extractQuads s.mainQuads false s.quads).changed s.gpuQuads s.nextId
    simp only [frame]
    exact ⟨h.1, fun hr => by rw [h.2 hr]⟩
  | replace qs =>
    have h := queue_after_prepare (extractQuads (some qs) true s.quads).quads
      (extractQuads (some qs) true s.quads).changed s.gpuQuads s.nextId
    simp only [frame]
    exact ⟨h.1, fun hr => by rw [h.2 hr]⟩

/-- C3 (amended) witness: an idle frame from the initial state performs no
rebuild and leaves the (absent) cached binding unchanged. -/
theorem C3_rebuild_amended_witness :
    ((frame Sim.init MainAction.keep 0).trace.rebuilt = true ↔
      (frame Sim.init MainAction.keep 0).trace.synced = true) ∧
    ((frame Sim.init MainAction.keep 0).trace.rebuilt = false →
      Option.map GpuQuadsModel.bind_group
          ((frame Sim.init MainAction.keep 0).sim.gpuQuads) =
        Option.map GpuQuadsModel.bind_group Sim.init.gpuQuads) :=
  C3_rebuild_amended Sim.init MainAction.keep 0

/-- Commands of the first frame that replaces the (previously absent) store:
one full bind sequence ending in one indexed draw whose index count is the
`u32`-truncated `6 * n`. -/
theorem frame_init_replace (qs : List Quad) (off : Nat) :
    (frame Sim.init (MainAction.replace qs) off).trace.commands =
      some [Cmd.setPipeline, Cmd.setViewBindGroup 0 2 off,
            Cmd.setQuadsBindGroup 1 3, Cmd.setIndexBuffer 0,
            Cmd.drawIndexed (indexCountU32 (qs.map GpuQuad.fromQuad).length) 1] := by
  simp [frame, Sim.init, extractQuads, prepareQuads, queueQuads,
    StorageBufferModel.write_buffer, GpuQuadsModel.default, renderPhase,
    drawQuadsCommands]

/-- C6 counterexample: replacing the store with `2^30` quads issues a draw
whose recorded index count is `2^31` (the `u32`-wrapped value of
`6 * 2^30`), not `6 × instance_count = 6 * 2^30`; so the index count of the
issued draw does not equal `6 × instance_count` for every reachable state. -/
theorem C6_draw_count_counterexample :
    ((runActs [MainAction.replace (List.replicate (2 ^ 30) q0)]).2.map
       (fun t => Option.map (List.filter Cmd.isDraw) t.commands)) =
      [some [Cmd.drawIndexed (2 ^ 31) 1]] ∧
    (2 : Nat) ^ 31 ≠ 6 * 2 ^ 30 := by
  constructor
  · have h := frame_init_replace (List.replicate (2 ^ 30) q0) 0
    have hic : indexCountU32
        ((List.replicate (2 ^ 30) q0).map GpuQuad.fromQuad).length = 2 ^ 31 := by
      rw [List.length_map, List.length_replicate, indexCountU32_eq]
      norm_num [u32Mod]
    rw [hic] at h
    simp only [runActs, runFrom, List.map_cons, List.map_nil]
    rw [h]
    simp [Cmd.isDraw, List.filter]
  · norm_num

/-- C6 (amended): for each view with an active draw phase (one queued phase
item), the Draw Sequencer appends exactly one indexed draw, with index count
`(6 × instance_count) mod 2^32` — equal to `6 × instance_count` whenever
that fits in `uint32` — and draw-call instance count 1; the command order is
fixed: set pipeline, bind the view binding at slot 0 with its dynamic
offset, bind the quads binding at slot 1, bind the index buffer, issue the
draw. -/
theorem C6_draw_sequence (g : GpuQuadsModel) (vb off bg ib : Nat)
    (hbg : g.bind_group = some bg) (hib : g.index_buffer = some ib)
    (hcount : g.index_count = indexCountU32 g.instances.array.length) :
    renderPhase 1 (some g) vb off =
      some [Cmd.setPipeline, Cmd.setViewBindGroup 0 vb off,
            Cmd.setQuadsBindGroup 1 bg, Cmd.setIndexBuffer ib,
            Cmd.drawIndexed (indexCountU32 g.instances.array.length) 1] ∧
    ((renderPhase 1 (some g) vb off).getD []).filter Cmd.isDraw =
      [Cmd.drawIndexed (indexCountU32 g.instances.array.length) 1] ∧
    (6 * g.instances.array.length < u32Mod →
      indexCountU32 g.instances.array.length = 6 * g.instances.array.length) := by
  have h1 := renderPhase_one g vb off bg ib hbg hib
  rw [hcount] at h1
  refine ⟨h1, ?_, ?_⟩
  · rw [h1]
    simp [Cmd.isDraw, List.filter]
  · intro hfit
    rw [indexCountU32_eq, Nat.mod_eq_of_lt hfit]

/-- C6 (amended) witness: the empty-store populated state renders exactly
one draw with index count `indexCountU32 0 = 0` and instance count 1, in the
fixed order. -/
theorem C6_draw_sequence_witness :
    (gpuQuadsEmptyPopulated.bind_group = some 5 ∧
     gpuQuadsEmptyPopulated.index_buffer = some 7 ∧
     gpuQuadsEmptyPopulated.index_count =
       indexCountU32 gpuQuadsEmptyPopulated.instances.array.length) ∧
    (renderPhase 1 (some gpuQuadsEmptyPopulated) 9 4 =
      some [Cmd.setPipeline, Cmd.setViewBindGroup 0 9 4,
            Cmd.setQuadsBindGroup 1 5, Cmd.setIndexBuffer 7,
            Cmd.drawIndexed
              (indexCountU32 gpuQuadsEmptyPopulated.instances.array.length) 1] ∧
     ((renderPhase 1 (some gpuQuadsEmptyPopulated) 9 4).getD []).filter Cmd.isDraw =
       [Cmd.drawIndexed
         (indexCountU32 gpuQuadsEmptyPopulated.instances.array.length) 1] ∧
     (6 * gpuQuadsEmptyPopulated.instances.array.length < u32Mod →
       indexCountU32 gpuQuadsEmptyPopulated.instances.array.length =
         6 * gpuQuadsEmptyPopulated.instances.array.length)) :=
  ⟨⟨rfl, rfl, rfl⟩, C6_draw_sequence gpuQuadsEmptyPopulated 9 4 5 7 rfl rfl rfl⟩

end VertexPulling
